import Mathlib

/-!
Verification of the OpenThread radio platform abstraction
(`src/include/platform/radio.h`).

The header declares the PHY constants, the `RadioPacket` frame structure
and the driver entry points; the driver implementations themselves are not
part of the repository snapshot, so the state-machine behaviour of the
operations is modelled from the specification and clearly marked as such.
Constants and the frame type are embedded directly from the header.
-/

/-- PHY constants from the anonymous enum in `radio.h` (lines 68-80).
All values are nonnegative C enum constants, embedded as `Nat`. -/
def kMaxPHYPacketSize : Nat := 127

/-- Minimum 2.4 GHz IEEE 802.15.4 channel (`radio.h` line 71). -/
def kPhyMinChannel : Nat := 11

/-- Maximum 2.4 GHz IEEE 802.15.4 channel (`radio.h` line 72). -/
def kPhyMaxChannel : Nat := 26

/-- Symbols per octet (`radio.h` line 73). -/
def kPhySymbolsPerOctet : Nat := 2

/-- PHY bit rate in bits per second (`radio.h` line 74). -/
def kPhyBitRate : Nat := 250000

/-- Bits per octet (`radio.h` line 76). -/
def kPhyBitsPerOctet : Nat := 8

/-- Symbol period in microseconds, computed exactly as in `radio.h` line 77
with C integer (truncating) division. -/
def kPhyUsPerSymbol : Nat := ((kPhyBitsPerOctet / kPhySymbolsPerOctet) * 1000000) / kPhyBitRate

/-- LQI sentinel meaning measurement not supported (`radio.h` line 79). -/
def kPhyNoLqi : Nat := 0

/-- Error codes of `ThreadError` referenced by the header's doc comments:
`kThreadError_None`, `_Fail`, `_InvalidArgs`, `_Abort`, `_NoAck`,
`_ChannelAccessFailure`. -/
inductive ThreadError where
  | none
  | fail
  | invalidArgs
  | abort
  | noAck
  | channelAccessFailure
deriving DecidableEq, Repr

/-- The `RadioPacket` structure from `radio.h` lines 96-104. The `uint8_t`
fields are embedded as `Fin 256`, `int8_t mPower` as an `Int`, and the PSDU
pointer as the byte list it points to. -/
structure RadioPacket where
  mPsdu : List (Fin 256)
  mLength : Fin 256
  mChannel : Fin 256
  mPower : Int
  mLqi : Fin 256
  mSecurityValid : Bool
deriving DecidableEq, Repr

/-- Radio capability bits from `otRadioCaps` (`radio.h` lines 87-91). -/
def kRadioCapsNone : Nat := 0

/-- Radio supports AckTime event (`radio.h` line 90). -/
def kRadioCapsAckTimeout : Nat := 1

/-- Modelled from the spec: the driver operating states named by sections 4.1
and the header's operation doc comments (Disabled, Idle, Sleep, Receive,
Transmit). The state-machine implementation is not in the repository
snapshot. -/
inductive RadioState where
  | disabled
  | idle
  | sleep
  | receive
  | transmit
deriving DecidableEq, Repr

/-- Modelled from the spec: the observable driver state. It holds the
operating state, the single transmit buffer (its stable address modelled as
`txBufAddr` plus its contents), and the cached noise-floor measurement
(`Option.none` when no valid measurement has been recorded). The concrete
driver implementation is not in the repository snapshot. -/
structure DriverState where
  state : RadioState
  txBufAddr : Nat
  txBuffer : RadioPacket
  noiseFloor : Option Int
deriving DecidableEq, Repr

/-- The default (zeroed) transmit buffer contents at initialization. -/
def initPacket : RadioPacket :=
  { mPsdu := [], mLength := 0, mChannel := 0, mPower := 0, mLqi := 0,
    mSecurityValid := false }

/-- Modelled from the spec: `otPlatRadioInit` allocates internal resources
(one transmit buffer, at a fixed address) and leaves the state Disabled with
no valid noise-floor measurement. The implementation is not in the
repository snapshot. -/
def otPlatRadioInit (aBufAddr : Nat) : DriverState :=
  { state := RadioState.disabled, txBufAddr := aBufAddr,
    txBuffer := initPacket, noiseFloor := Option.none }

/-- Modelled from the spec: `otPlatRadioEnable` powers the hardware up from
Disabled to Idle; on failure the state is unchanged. `hwOk` stands for
whether the hardware transition succeeds. The implementation is not in the
repository snapshot. -/
def otPlatRadioEnable (s : DriverState) (hwOk : Bool) : ThreadError × DriverState :=
  if s.state = RadioState.disabled then
    if hwOk then (ThreadError.none, { s with state := RadioState.idle })
    else (ThreadError.fail, s)
  else (ThreadError.fail, s)

/-- Modelled from the spec: `otPlatRadioDisable` powers down from any
non-transient state to Disabled; on failure the state is unchanged. The
implementation is not in the repository snapshot. -/
def otPlatRadioDisable (s : DriverState) (hwOk : Bool) : ThreadError × DriverState :=
  if s.state = RadioState.disabled ∨ s.state = RadioState.idle ∨
      s.state = RadioState.sleep then
    if hwOk then (ThreadError.none, { s with state := RadioState.disabled })
    else (ThreadError.fail, s)
  else (ThreadError.fail, s)

/-- Modelled from the spec: `otPlatRadioSleep` transitions from Idle to
Sleep; on failure the state is unchanged. The implementation is not in the
repository snapshot. -/
def otPlatRadioSleep (s : DriverState) (hwOk : Bool) : ThreadError × DriverState :=
  if s.state = RadioState.idle then
    if hwOk then (ThreadError.none, { s with state := RadioState.sleep })
    else (ThreadError.fail, s)
  else (ThreadError.fail, s)

/-- Modelled from the spec: `otPlatRadioIdle` returns from Sleep to Idle; on
failure the state is unchanged. The implementation is not in the repository
snapshot. -/
def otPlatRadioIdle (s : DriverState) (hwOk : Bool) : ThreadError × DriverState :=
  if s.state = RadioState.sleep ∨ s.state = RadioState.idle then
    if hwOk then (ThreadError.none, { s with state := RadioState.idle })
    else (ThreadError.fail, s)
  else (ThreadError.fail, s)

/-- Modelled from the spec: `otPlatRadioReceive` validates the channel
first, rejecting any channel outside `[kPhyMinChannel, kPhyMaxChannel]` with
an invalid-argument error and leaving the state untouched; otherwise it
requires Idle and transitions to Receive when the hardware accepts. The
implementation is not in the repository snapshot. -/
def otPlatRadioReceive (s : DriverState) (aChannel : Nat) (hwOk : Bool) :
    ThreadError × DriverState :=
  if aChannel < kPhyMinChannel ∨ kPhyMaxChannel < aChannel then
    (ThreadError.invalidArgs, s)
  else if s.state = RadioState.idle then
    if hwOk then (ThreadError.none, { s with state := RadioState.receive })
    else (ThreadError.fail, s)
  else (ThreadError.fail, s)

/-- Modelled from the spec: `otPlatRadioTransmit` validates the shared
transmit buffer first, rejecting a length above `kMaxPHYPacketSize`
synchronously with an invalid-argument error before anything reaches the
hardware; otherwise it requires Idle and transitions to Transmit when the
hardware accepts. The implementation is not in the repository snapshot. -/
def otPlatRadioTransmit (s : DriverState) (hwOk : Bool) : ThreadError × DriverState :=
  if kMaxPHYPacketSize < s.txBuffer.mLength.val then
    (ThreadError.invalidArgs, s)
  else if s.state = RadioState.idle then
    if hwOk then (ThreadError.none, { s with state := RadioState.transmit })
    else (ThreadError.fail, s)
  else (ThreadError.fail, s)

/-- `otPlatRadioGetTransmitBuffer` returns a pointer to the single transmit
buffer; a pointer is modelled as the buffer address together with the bytes
it denotes. Modelled from the spec: the accessor returns the one buffer
instance held in the driver state. -/
def otPlatRadioGetTransmitBuffer (s : DriverState) : Nat × RadioPacket :=
  (s.txBufAddr, s.txBuffer)

/-- Modelled from the spec: the caller populates the shared transmit buffer
in place before calling Transmit; this writes the contents, never moving the
buffer. The implementation is not in the repository snapshot. -/
def writeTransmitBuffer (s : DriverState) (p : RadioPacket) : DriverState :=
  { s with txBuffer := p }

/-- `otPlatRadioGetNoiseFloor` per the header doc comment (`radio.h` lines
266-271): the noise floor value in dBm when valid, 127 when invalid.
Modelled from the spec: it returns the last cached value without blocking.
-/
def otPlatRadioGetNoiseFloor (s : DriverState) : Int :=
  match s.noiseFloor with
  | Option.none => 127
  | Option.some v => v

/-- Completion notifications pushed by the driver, per `radio.h` lines
218-225 (`otPlatRadioReceiveDone`) and 254-264 (`otPlatRadioTransmitDone`).
-/
inductive RadioEvent where
  | receiveDone (aPacket : Option RadioPacket) (error : ThreadError)
  | transmitDone (aFramePending : Bool) (error : ThreadError)
deriving DecidableEq, Repr

/-- Modelled from the spec: how an in-flight receive sequence concludes —
either a frame arrives or reception is aborted. -/
inductive RxOutcome where
  | frameReceived (p : RadioPacket)
  | rxAborted
deriving DecidableEq, Repr

/-- Modelled from the spec: how an in-flight transmit sequence concludes. -/
inductive TxOutcome where
  | sent (framePending : Bool)
  | txNoAck
  | txChannelAccessFailure
  | txAborted
deriving DecidableEq, Repr

/-- The `ThreadError` a transmit outcome is reported with, per the
`otPlatRadioTransmitDone` doc comment. -/
def txOutcomeError : TxOutcome → ThreadError
  | TxOutcome.sent _ => ThreadError.none
  | TxOutcome.txNoAck => ThreadError.noAck
  | TxOutcome.txChannelAccessFailure => ThreadError.channelAccessFailure
  | TxOutcome.txAborted => ThreadError.abort

/-- The frame-pending flag reported with a transmit outcome; it is
meaningful only when an ACK was received. -/
def txOutcomeFramePending : TxOutcome → Bool
  | TxOutcome.sent fp => fp
  | _ => false

/-- Modelled from the spec: the complete receive sequence. When the
synchronous `otPlatRadioReceive` call fails, no notification ever fires and
the state is as the call left it. When it succeeds, the driver remains in
Receive until the outcome, fires exactly one `ReceiveDone` — with the frame
attached and error None on success, or a to-be-ignored frame argument and
error Abort — and returns to Idle. The implementation is not in the
repository snapshot. -/
def receiveSequence (s : DriverState) (aChannel : Nat) (hwOk : Bool)
    (out : RxOutcome) : ThreadError × DriverState × List RadioEvent :=
  match otPlatRadioReceive s aChannel hwOk with
  | (ThreadError.none, s₁) =>
    match out with
    | RxOutcome.frameReceived p =>
        (ThreadError.none, { s₁ with state := RadioState.idle },
          [RadioEvent.receiveDone (Option.some p) ThreadError.none])
    | RxOutcome.rxAborted =>
        (ThreadError.none, { s₁ with state := RadioState.idle },
          [RadioEvent.receiveDone Option.none ThreadError.abort])
  | (e, s₁) => (e, s₁, [])

/-- Modelled from the spec: the complete transmit sequence. When the
synchronous `otPlatRadioTransmit` call fails, no notification ever fires and
the frame never reaches the hardware. When it succeeds, the driver emits the
frame, fires exactly one `TransmitDone` carrying the outcome, and returns to
Idle. The implementation is not in the repository snapshot. -/
def transmitSequence (s : DriverState) (hwOk : Bool) (out : TxOutcome) :
    ThreadError × DriverState × List RadioEvent :=
  match otPlatRadioTransmit s hwOk with
  | (ThreadError.none, s₁) =>
      (ThreadError.none, { s₁ with state := RadioState.idle },
        [RadioEvent.transmitDone (txOutcomeFramePending out) (txOutcomeError out)])
  | (e, s₁) => (e, s₁, [])

/-- A caller-visible driver operation, used to state buffer stability across
arbitrary call sequences. -/
inductive RadioOp where
  | enable (hwOk : Bool)
  | disable (hwOk : Bool)
  | sleep (hwOk : Bool)
  | idle (hwOk : Bool)
  | rx (aChannel : Nat) (hwOk : Bool) (out : RxOutcome)
  | tx (hwOk : Bool) (out : TxOutcome)
  | writeBuf (p : RadioPacket)
deriving DecidableEq, Repr

/-- Run one driver operation, keeping the resulting driver state. -/
def runOp (s : DriverState) : RadioOp → DriverState
  | RadioOp.enable hwOk => (otPlatRadioEnable s hwOk).2
  | RadioOp.disable hwOk => (otPlatRadioDisable s hwOk).2
  | RadioOp.sleep hwOk => (otPlatRadioSleep s hwOk).2
  | RadioOp.idle hwOk => (otPlatRadioIdle s hwOk).2
  | RadioOp.rx ch hwOk out => (receiveSequence s ch hwOk out).2.1
  | RadioOp.tx hwOk out => (transmitSequence s hwOk out).2.1
  | RadioOp.writeBuf p => writeTransmitBuffer s p

/-- Run a sequence of driver operations from a starting state. -/
def runOps (s : DriverState) : List RadioOp → DriverState
  | [] => s
  | op :: rest => runOps (runOp s op) rest

/-- The LQI sentinel as a legal value of the `uint8_t mLqi` field. -/
def lqiSentinel : Fin 256 := ⟨kPhyNoLqi, by decide⟩

/-- Shared helper: an oversized transmit buffer makes the whole transmit
sequence return the invalid-argument error with the state untouched and no
notification fired. -/
theorem transmit_reject_of_oversize (s : DriverState) (hwOk : Bool)
    (out : TxOutcome) (h : kMaxPHYPacketSize < s.txBuffer.mLength.val) :
    transmitSequence s hwOk out = (ThreadError.invalidArgs, s, []) := by
  have h1 : otPlatRadioTransmit s hwOk = (ThreadError.invalidArgs, s) := by
    unfold otPlatRadioTransmit
    rw [if_pos h]
  unfold transmitSequence
  rw [h1]

/-- Claim C1: for every channel outside [kPhyMinChannel, kPhyMaxChannel],
`otPlatRadioReceive` returns the invalid-argument error, the driver state is
unchanged, and the full receive sequence fires no notification. -/
theorem receive_invalid_channel (s : DriverState) (ch : Nat) (hwOk : Bool)
    (out : RxOutcome) (h : ch < kPhyMinChannel ∨ kPhyMaxChannel < ch) :
    otPlatRadioReceive s ch hwOk = (ThreadError.invalidArgs, s) ∧
    receiveSequence s ch hwOk out = (ThreadError.invalidArgs, s, []) := by
  have h1 : otPlatRadioReceive s ch hwOk = (ThreadError.invalidArgs, s) := by
    unfold otPlatRadioReceive
    rw [if_pos h]
  refine ⟨h1, ?_⟩
  unfold receiveSequence
  rw [h1]

/-- Witness for C1 at channel 27 on the freshly initialized driver. -/
theorem receive_invalid_channel_witness :
    (27 < kPhyMinChannel ∨ kPhyMaxChannel < 27) ∧
    otPlatRadioReceive (otPlatRadioInit 0) 27 true =
      (ThreadError.invalidArgs, otPlatRadioInit 0) ∧
    receiveSequence (otPlatRadioInit 0) 27 true RxOutcome.rxAborted =
      (ThreadError.invalidArgs, otPlatRadioInit 0, []) := by
  refine ⟨by decide, ?_, ?_⟩
  · exact (receive_invalid_channel (otPlatRadioInit 0) 27 true
      RxOutcome.rxAborted (by decide)).1
  · exact (receive_invalid_channel (otPlatRadioInit 0) 27 true
      RxOutcome.rxAborted (by decide)).2

/-- Claim C2: when the shared transmit buffer's length field exceeds
kMaxPHYPacketSize = 127, Transmit fails synchronously with the
invalid-argument error, no TransmitDone is ever fired for the request, and
the state (hence the hardware) is untouched. -/
theorem transmit_oversize_rejected (s : DriverState) (hwOk : Bool)
    (out : TxOutcome) (h : 127 < s.txBuffer.mLength.val) :
    transmitSequence s hwOk out = (ThreadError.invalidArgs, s, []) :=
  transmit_reject_of_oversize s hwOk out h

/-- Witness for C2 with a length-128 buffer. -/
theorem transmit_oversize_rejected_witness :
    127 < ({ otPlatRadioInit 0 with
        txBuffer := { initPacket with mLength := 128 } } :
        DriverState).txBuffer.mLength.val ∧
    transmitSequence
        { otPlatRadioInit 0 with
          txBuffer := { initPacket with mLength := 128 } } true
        TxOutcome.txAborted =
      (ThreadError.invalidArgs,
        { otPlatRadioInit 0 with
          txBuffer := { initPacket with mLength := 128 } }, []) :=
  ⟨by decide,
    transmit_oversize_rejected
      { otPlatRadioInit 0 with
        txBuffer := { initPacket with mLength := 128 } } true
      TxOutcome.txAborted (by decide)⟩

/-- Claim C3: Enable from Disabled either succeeds and lands exactly in Idle
with everything else untouched, or fails and leaves the state exactly as it
was (still Disabled); no other outcome is observable. -/
theorem enable_from_disabled (s : DriverState) (hwOk : Bool)
    (h : s.state = RadioState.disabled) :
    (otPlatRadioEnable s hwOk =
        (ThreadError.none, { s with state := RadioState.idle })) ∨
    (otPlatRadioEnable s hwOk = (ThreadError.fail, s) ∧
      s.state = RadioState.disabled) := by
  unfold otPlatRadioEnable
  rw [if_pos h]
  cases hwOk with
  | false => exact Or.inr ⟨rfl, h⟩
  | true => exact Or.inl rfl

/-- Witness for C3 on the freshly initialized driver with a succeeding
hardware transition. -/
theorem enable_from_disabled_witness :
    (otPlatRadioInit 0).state = RadioState.disabled ∧
    ((otPlatRadioEnable (otPlatRadioInit 0) true =
        (ThreadError.none,
          { otPlatRadioInit 0 with state := RadioState.idle })) ∨
      (otPlatRadioEnable (otPlatRadioInit 0) true =
          (ThreadError.fail, otPlatRadioInit 0) ∧
        (otPlatRadioInit 0).state = RadioState.disabled)) :=
  ⟨rfl, enable_from_disabled (otPlatRadioInit 0) true rfl⟩

/-- Claim C4: when the synchronous Receive call succeeds, the receive
sequence fires exactly one ReceiveDone notification — either a frame with
error None, or an ignorable frame argument with error Abort — and the driver
state after it fires is Idle. -/
theorem receive_success_one_done (s : DriverState) (ch : Nat) (hwOk : Bool)
    (out : RxOutcome) (h : (otPlatRadioReceive s ch hwOk).1 = ThreadError.none) :
    ∃ pkt err,
      (receiveSequence s ch hwOk out).2.2 = [RadioEvent.receiveDone pkt err] ∧
      (receiveSequence s ch hwOk out).2.1.state = RadioState.idle ∧
      ((∃ p, pkt = Option.some p ∧ err = ThreadError.none) ∨
        (pkt = Option.none ∧ err = ThreadError.abort)) := by
  unfold receiveSequence
  rcases hc : otPlatRadioReceive s ch hwOk with ⟨e, s₁⟩
  rw [hc] at h
  simp only at h
  subst h
  cases out with
  | frameReceived p =>
      exact ⟨Option.some p, ThreadError.none, rfl, rfl, Or.inl ⟨p, rfl, rfl⟩⟩
  | rxAborted =>
      exact ⟨Option.none, ThreadError.abort, rfl, rfl, Or.inr ⟨rfl, rfl⟩⟩

/-- Witness for C4: receive on channel 11 from Idle, concluding with a
received frame. -/
theorem receive_success_one_done_witness :
    (otPlatRadioReceive { otPlatRadioInit 0 with state := RadioState.idle }
        11 true).1 = ThreadError.none ∧
    ∃ pkt err,
      (receiveSequence { otPlatRadioInit 0 with state := RadioState.idle }
          11 true (RxOutcome.frameReceived initPacket)).2.2 =
        [RadioEvent.receiveDone pkt err] ∧
      (receiveSequence { otPlatRadioInit 0 with state := RadioState.idle }
          11 true (RxOutcome.frameReceived initPacket)).2.1.state =
        RadioState.idle ∧
      ((∃ p, pkt = Option.some p ∧ err = ThreadError.none) ∨
        (pkt = Option.none ∧ err = ThreadError.abort)) :=
  ⟨by decide,
    receive_success_one_done { otPlatRadioInit 0 with state := RadioState.idle }
      11 true (RxOutcome.frameReceived initPacket) (by decide)⟩

/-- Claim C5: when the synchronous Transmit call succeeds, the transmit
sequence fires exactly one TransmitDone notification, its error is one of
None, NoAck, ChannelAccessFailure or Abort, and the driver state after it
fires is Idle. -/
theorem transmit_success_one_done (s : DriverState) (hwOk : Bool)
    (out : TxOutcome) (h : (otPlatRadioTransmit s hwOk).1 = ThreadError.none) :
    ∃ fp err,
      (transmitSequence s hwOk out).2.2 = [RadioEvent.transmitDone fp err] ∧
      (err = ThreadError.none ∨ err = ThreadError.noAck ∨
        err = ThreadError.channelAccessFailure ∨ err = ThreadError.abort) ∧
      (transmitSequence s hwOk out).2.1.state = RadioState.idle := by
  unfold transmitSequence
  rcases hc : otPlatRadioTransmit s hwOk with ⟨e, s₁⟩
  rw [hc] at h
  simp only at h
  subst h
  refine ⟨txOutcomeFramePending out, txOutcomeError out, rfl, ?_, rfl⟩
  cases out with
  | sent fp => exact Or.inl rfl
  | txNoAck => exact Or.inr (Or.inl rfl)
  | txChannelAccessFailure => exact Or.inr (Or.inr (Or.inl rfl))
  | txAborted => exact Or.inr (Or.inr (Or.inr rfl))

/-- Witness for C5: transmit from Idle with an in-range buffer, concluding
with a transmission that got no ACK. -/
theorem transmit_success_one_done_witness :
    (otPlatRadioTransmit { otPlatRadioInit 0 with state := RadioState.idle }
        true).1 = ThreadError.none ∧
    ∃ fp err,
      (transmitSequence { otPlatRadioInit 0 with state := RadioState.idle }
          true TxOutcome.txNoAck).2.2 = [RadioEvent.transmitDone fp err] ∧
      (err = ThreadError.none ∨ err = ThreadError.noAck ∨
        err = ThreadError.channelAccessFailure ∨ err = ThreadError.abort) ∧
      (transmitSequence { otPlatRadioInit 0 with state := RadioState.idle }
          true TxOutcome.txNoAck).2.1.state = RadioState.idle :=
  ⟨by decide,
    transmit_success_one_done { otPlatRadioInit 0 with state := RadioState.idle }
      true TxOutcome.txNoAck (by decide)⟩

/-- Claim C6: GetNoiseFloor returns the sentinel 127 whenever no valid
noise-floor measurement has been recorded, and otherwise returns the cached
valid reading; in the model it is a pure, non-blocking read of the cache. -/
theorem getNoiseFloor_cached (s : DriverState) :
    (s.noiseFloor = Option.none → otPlatRadioGetNoiseFloor s = 127) ∧
    (∀ v : Int, s.noiseFloor = Option.some v →
      otPlatRadioGetNoiseFloor s = v) := by
  constructor
  · intro h
    unfold otPlatRadioGetNoiseFloor
    rw [h]
  · intro v h
    unfold otPlatRadioGetNoiseFloor
    rw [h]

/-- Witness for C6: the fresh driver reports 127; a driver with a cached
reading of -95 dBm reports -95. -/
theorem getNoiseFloor_cached_witness :
    otPlatRadioGetNoiseFloor (otPlatRadioInit 0) = 127 ∧
    otPlatRadioGetNoiseFloor
      { otPlatRadioInit 0 with noiseFloor := Option.some (-95) } = -95 :=
  ⟨(getNoiseFloor_cached (otPlatRadioInit 0)).1 rfl,
    (getNoiseFloor_cached
      { otPlatRadioInit 0 with noiseFloor := Option.some (-95) }).2 (-95) rfl⟩

/-- Claim C7: the symbol-period constant is computed in exact integer
arithmetic as ((bits-per-octet / symbols-per-octet) * 1000000) / bit-rate
and equals exactly 16 microseconds per symbol. -/
theorem kPhyUsPerSymbol_exact :
    kPhyUsPerSymbol =
      ((kPhyBitsPerOctet / kPhySymbolsPerOctet) * 1000000) / kPhyBitRate ∧
    kPhyUsPerSymbol = 16 ∧
    ((kPhyBitsPerOctet / kPhySymbolsPerOctet) * 1000000) % kPhyBitRate = 0 :=
  ⟨rfl, by decide, by decide⟩

/-- Shared helper: the synchronous Receive call never moves the transmit
buffer. -/
theorem receive_txBufAddr (s : DriverState) (ch : Nat) (hwOk : Bool) :
    (otPlatRadioReceive s ch hwOk).2.txBufAddr = s.txBufAddr := by
  unfold otPlatRadioReceive
  split_ifs <;> rfl

/-- Shared helper: the synchronous Transmit call never moves the transmit
buffer. -/
theorem transmit_txBufAddr (s : DriverState) (hwOk : Bool) :
    (otPlatRadioTransmit s hwOk).2.txBufAddr = s.txBufAddr := by
  unfold otPlatRadioTransmit
  split_ifs <;> rfl

/-- Shared helper: the whole receive sequence never moves the transmit
buffer. -/
theorem receiveSequence_txBufAddr (s : DriverState) (ch : Nat) (hwOk : Bool)
    (out : RxOutcome) :
    (receiveSequence s ch hwOk out).2.1.txBufAddr = s.txBufAddr := by
  unfold receiveSequence
  rcases hc : otPlatRadioReceive s ch hwOk with ⟨e, s₁⟩
  have h1 : s₁.txBufAddr = s.txBufAddr := by
    have h2 := receive_txBufAddr s ch hwOk
    rw [hc] at h2
    exact h2
  cases e <;> cases out <;> simpa using h1

/-- Shared helper: the whole transmit sequence never moves the transmit
buffer. -/
theorem transmitSequence_txBufAddr (s : DriverState) (hwOk : Bool)
    (out : TxOutcome) :
    (transmitSequence s hwOk out).2.1.txBufAddr = s.txBufAddr := by
  unfold transmitSequence
  rcases hc : otPlatRadioTransmit s hwOk with ⟨e, s₁⟩
  have h1 : s₁.txBufAddr = s.txBufAddr := by
    have h2 := transmit_txBufAddr s hwOk
    rw [hc] at h2
    exact h2
  cases e <;> simpa using h1

/-- Shared helper: no single driver operation moves the transmit buffer. -/
theorem runOp_txBufAddr (s : DriverState) (op : RadioOp) :
    (runOp s op).txBufAddr = s.txBufAddr := by
  cases op with
  | enable hwOk =>
      show (otPlatRadioEnable s hwOk).2.txBufAddr = s.txBufAddr
      unfold otPlatRadioEnable
      split_ifs <;> rfl
  | disable hwOk =>
      show (otPlatRadioDisable s hwOk).2.txBufAddr = s.txBufAddr
      unfold otPlatRadioDisable
      split_ifs <;> rfl
  | sleep hwOk =>
      show (otPlatRadioSleep s hwOk).2.txBufAddr = s.txBufAddr
      unfold otPlatRadioSleep
      split_ifs <;> rfl
  | idle hwOk =>
      show (otPlatRadioIdle s hwOk).2.txBufAddr = s.txBufAddr
      unfold otPlatRadioIdle
      split_ifs <;> rfl
  | rx ch hwOk out => exact receiveSequence_txBufAddr s ch hwOk out
  | tx hwOk out => exact transmitSequence_txBufAddr s hwOk out
  | writeBuf p => rfl

/-- Shared helper: no sequence of driver operations moves the transmit
buffer. -/
theorem runOps_txBufAddr (s : DriverState) (ops : List RadioOp) :
    (runOps s ops).txBufAddr = s.txBufAddr := by
  induction ops generalizing s with
  | nil => rfl
  | cons op rest ih =>
      show (runOps (runOp s op) rest).txBufAddr = s.txBufAddr
      rw [ih (runOp s op), runOp_txBufAddr]

/-- Claim C8: GetTransmitBuffer is stable — after any two sequences of
driver operations from the same driver instance, the two calls return
references to the same single buffer address; the driver state carries
exactly one buffer. -/
theorem getTransmitBuffer_stable (s : DriverState) (ops₁ ops₂ : List RadioOp) :
    (otPlatRadioGetTransmitBuffer (runOps s ops₁)).1 =
      (otPlatRadioGetTransmitBuffer (runOps s ops₂)).1 := by
  show (runOps s ops₁).txBufAddr = (runOps s ops₂).txBufAddr
  rw [runOps_txBufAddr, runOps_txBufAddr]

/-- Claim C9: the LQI sentinel kPhyNoLqi is 0, which is also the minimum
value of the uint8_t mLqi field; consequently a frame whose measured LQI is
zero is literally the same RadioPacket value as one carrying the
not-supported sentinel, so the interface cannot distinguish the two. -/
theorem lqi_sentinel_ambiguous :
    kPhyNoLqi = 0 ∧ (∀ l : Fin 256, kPhyNoLqi ≤ l.val) ∧
    ∀ p : RadioPacket, p.mLqi.val = kPhyNoLqi →
      p = { p with mLqi := lqiSentinel } := by
  refine ⟨rfl, fun l => Nat.zero_le _, fun p h => ?_⟩
  have h1 : p.mLqi = lqiSentinel := Fin.ext h
  rw [← h1]

/-- Witness for C9: the zeroed packet already carries the sentinel. -/
theorem lqi_sentinel_ambiguous_witness :
    initPacket.mLqi.val = kPhyNoLqi ∧
    initPacket = { initPacket with mLqi := lqiSentinel } :=
  ⟨rfl, lqi_sentinel_ambiguous.2.2 initPacket rfl⟩

/-- Claim C10: the RadioPacket type itself does not enforce the 127-octet
maximum — every length from 128 to 255 is the mLength of some well-typed
RadioPacket — and the runtime rejection branch of Transmit is what enforces
the limit: any driver state whose buffer carries such a length is rejected
with the invalid-argument error, and that branch is reachable. -/
theorem radioPacket_length_unenforced (v : Nat)
    (h1 : kMaxPHYPacketSize < v) (h2 : v ≤ 255) :
    (∃ p : RadioPacket, p.mLength.val = v ∧ kMaxPHYPacketSize < p.mLength.val) ∧
    ∀ s : DriverState, s.txBuffer.mLength.val = v → ∀ hwOk out,
      transmitSequence s hwOk out = (ThreadError.invalidArgs, s, []) := by
  constructor
  · exact ⟨{ initPacket with mLength := ⟨v, by omega⟩ }, rfl, h1⟩
  · intro s hs hwOk out
    exact transmit_reject_of_oversize s hwOk out (by rw [hs]; exact h1)

/-- Witness for C10 at length 200. -/
theorem radioPacket_length_unenforced_witness :
    kMaxPHYPacketSize < 200 ∧ 200 ≤ 255 ∧
    (∃ p : RadioPacket, p.mLength.val = 200 ∧
      kMaxPHYPacketSize < p.mLength.val) ∧
    transmitSequence
        { otPlatRadioInit 0 with
          txBuffer := { initPacket with mLength := ⟨200, by decide⟩ },
          state := RadioState.idle } true TxOutcome.txAborted =
      (ThreadError.invalidArgs,
        { otPlatRadioInit 0 with
          txBuffer := { initPacket with mLength := ⟨200, by decide⟩ },
          state := RadioState.idle }, []) :=
  ⟨by decide, by decide,
    (radioPacket_length_unenforced 200 (by decide) (by decide)).1,
    (radioPacket_length_unenforced 200 (by decide) (by decide)).2
      { otPlatRadioInit 0 with
        txBuffer := { initPacket with mLength := ⟨200, by decide⟩ },
        state := RadioState.idle } rfl true TxOutcome.txAborted⟩
